import Mathlib

/-!
Shallow embedding of the AlgoTrader backtesting microservice
(`backtest-service/main.py`) and of the companion stress-test script
(`src/__tests__/stress_test_drawdown.py`).

Modelling conventions:
* Python `float` values are modelled as `ℚ`; the single place where the code
  can produce `float('inf')` (`profit_factor`) uses the dedicated type `Flt`
  with an `inf` constructor.
* Python `int` is `ℤ`; the trade counts returned by the engine
  (`trades.win_count`, `trades.lose_count`) are non-negative and are
  modelled as `ℕ`.
* The external vectorized backtesting library (`vectorbt`) is opaque: its
  indicator constructors (`vbt.MA.run`, `vbt.RSI.run`) and its portfolio
  simulator (`vbt.Portfolio.from_signals`) are fields of a `Library`
  structure over which all theorems are parametric.  An indicator series is
  a `List (Option ℚ)`, `none` standing for a `NaN` entry (a comparison with
  `NaN` is `False` in pandas, hence `none` compares as `false`).
* `pd.to_datetime(ts, unit='ms')` followed by `.timestamp() * 1000` and
  `int(...)` round-trips the millisecond timestamp exactly, so the
  timestamp arithmetic is modelled as the identity on the stored `ℤ`.
-/

/-- A single OHLCV candle from the wire payload (`class Candle`).  The field
`open` is a Lean keyword, hence `open_`. -/
structure Candle where
  timestamp : ℤ
  open_ : ℚ
  high : ℚ
  low : ℚ
  close : ℚ
  volume : ℚ
  deriving DecidableEq

/-- Strategy parameters with their pydantic defaults (`class StrategyParams`). -/
structure StrategyParams where
  fast_window : ℤ := 20
  slow_window : ℤ := 50
  rsi_window : ℤ := 14
  rsi_oversold : ℤ := 30
  rsi_overbought : ℤ := 70
  stop_loss_pct : ℚ := 2/100
  take_profit_pct : ℚ := 4/100
  strategy_type : String := "ma_crossover"
  initial_capital : ℚ := 10000
  commission_pct : ℚ := 1/1000
  deriving DecidableEq

/-- The request body of `/run-backtest` (`class BacktestRequest`). -/
structure BacktestRequest where
  candles : List Candle
  strategy_params : StrategyParams
  symbol : String := "BTC/USDT"
  timeframe : String := "15m"
  deriving DecidableEq

/-- A Python float that may be `inf` (only `profit_factor` can be). -/
inductive Flt where
  | fin (q : ℚ)
  | inf
  deriving DecidableEq

/-- One entry of the JSON `equity_curve` list. -/
structure EquityPoint where
  timestamp : ℤ
  value : ℚ
  deriving DecidableEq

/-- One entry of the JSON `trades` list, as assembled by the service. -/
structure TradeOut where
  id : String
  symbol : String
  side : String
  entryTime : ℤ
  exitTime : Option ℤ
  entryPrice : ℚ
  exitPrice : Option ℚ
  quantity : ℚ
  pnl : ℚ
  pnlPercent : ℚ
  status : String
  deriving DecidableEq

/-- The response body of `/run-backtest` (`class BacktestResult`). -/
structure BacktestResult where
  total_return : ℚ
  total_return_pct : ℚ
  sharpe_ratio : ℚ
  max_drawdown : ℚ
  max_drawdown_pct : ℚ
  win_rate : ℚ
  profit_factor : Flt
  total_trades : ℤ
  winning_trades : ℤ
  losing_trades : ℤ
  avg_win : ℚ
  avg_loss : ℚ
  largest_win : ℚ
  largest_loss : ℚ
  equity_curve : List EquityPoint
  trades : List TradeOut
  execution_time : ℚ
  deriving DecidableEq

/-- One record of `portfolio.trades.records_arr` as the service reads it
(fields `id`, `entry_idx`, `exit_idx`, `direction`, `entry_price`,
`exit_price`, `size`, `pnl`, `return`; `return` is a Lean keyword, hence
`ret`). -/
structure TradeRec where
  id : ℤ
  entry_idx : ℤ
  exit_idx : ℤ
  direction : ℤ
  entry_price : ℚ
  exit_price : ℚ
  size : ℚ
  pnl : ℚ
  ret : ℚ
  deriving DecidableEq

/-- Everything the service reads off the object returned by
`vbt.Portfolio.from_signals`: the five `portfolio.stats()` entries it uses,
the equity series, the raw trade records and the pre-built trade
aggregates (`win_count`, `lose_count`, `win_pnl`, `lose_pnl`). -/
structure EngineOutput where
  statsTotalReturn : ℚ
  statsTotalReturnPct : ℚ
  statsSharpe : ℚ
  statsMaxDrawdown : ℚ
  statsMaxDrawdownPct : ℚ
  equity : List ℚ
  records : List TradeRec
  winCount : ℕ
  loseCount : ℕ
  winPnl : List ℚ
  losePnl : List ℚ
  deriving DecidableEq

/-- The argument tuple the service hands to `vbt.Portfolio.from_signals`. -/
structure SimInput where
  close : List ℚ
  entries : List Bool
  exits : List Bool
  init_cash : ℚ
  fees : ℚ
  sl_stop : ℚ
  tp_stop : ℚ
  deriving DecidableEq

/-- The opaque external library: indicator constructors and the portfolio
simulator.  All theorems about the service are parametric in it. -/
structure Library where
  ma : List ℚ → ℤ → List (Option ℚ)
  rsi : List ℚ → ℤ → List (Option ℚ)
  fromSignals : SimInput → EngineOutput

/-- Elementwise strictly-greater comparison of two indicator series
(`fast_ma.ma_above(slow_ma)`); a `NaN` entry compares as `false`. -/
def seriesAbove (xs ys : List (Option ℚ)) : List Bool :=
  List.zipWith
    (fun a b => match a, b with
      | some x, some y => decide (y < x)
      | _, _ => false) xs ys

/-- Elementwise strictly-less comparison of two indicator series
(`fast_ma.ma_below(slow_ma)`); a `NaN` entry compares as `false`. -/
def seriesBelow (xs ys : List (Option ℚ)) : List Bool :=
  List.zipWith
    (fun a b => match a, b with
      | some x, some y => decide (x < y)
      | _, _ => false) xs ys

/-- Elementwise comparison of an indicator series with a scalar threshold
(`rsi.rsi_below(t)`); a `NaN` entry compares as `false`. -/
def seriesBelowScalar (xs : List (Option ℚ)) (t : ℚ) : List Bool :=
  xs.map (fun a => match a with
    | some x => decide (x < t)
    | none => false)

/-- Elementwise comparison of an indicator series with a scalar threshold
(`rsi.rsi_above(t)`); a `NaN` entry compares as `false`. -/
def seriesAboveScalar (xs : List (Option ℚ)) (t : ℚ) : List Bool :=
  xs.map (fun a => match a with
    | some x => decide (t < x)
    | none => false)

/-- Pandas `series.mean()`: sum divided by length (the guards in the service keep
it from being applied to data the code considers empty). -/
def lmean (l : List ℚ) : ℚ := l.sum / (l.length : ℚ)

/-- Pandas `series.max()` on the values the service guards to be nonempty. -/
def lmax : List ℚ → ℚ
  | [] => 0
  | x :: xs => xs.foldl max x

/-- Pandas `series.min()` on the values the service guards to be nonempty. -/
def lmin : List ℚ → ℚ
  | [] => 0
  | x :: xs => xs.foldl min x

/-- The value `df.index[i].timestamp() * 1000` as an integer: the timestamp of the
`i`-th row of the (sorted) DataFrame.  The engine only produces in-range
row indices, so out-of-range access defaults to `0`. -/
def tsAt (df : List Candle) (i : ℤ) : ℤ :=
  (df.map Candle.timestamp).getD i.toNat 0

/-- One element of the `trade_list` the service builds from a raw trade
record (the loop bodies at `run_ma_crossover_strategy` and
`run_rsi_strategy` are identical).  `df.get` with a missing `symbol`
column returns the default `Unknown`. -/
def mkTradeOut (df : List Candle) (t : TradeRec) : TradeOut :=
  { id := toString t.id
    symbol := "Unknown"
    side := if 0 < t.direction then "buy" else "sell"
    entryTime := tsAt df t.entry_idx
    exitTime := if t.exit_idx ≠ -1 then some (tsAt df t.exit_idx) else none
    entryPrice := t.entry_price
    exitPrice := if t.exit_price ≠ 0 then some t.exit_price else none
    quantity := t.size
    pnl := t.pnl
    pnlPercent := t.ret * 100
    status := if t.exit_idx ≠ -1 then "closed" else "open" }

/-- The equity-curve reshaping loop: pairs the `i`-th equity value with the
timestamp of the `i`-th DataFrame row. -/
def mkEquityCurve (df : List Candle) (equity : List ℚ) : List EquityPoint :=
  equity.enum.map (fun p => { timestamp := tsAt df p.1, value := p.2 })

/-- The shared tail of both strategy functions: the trade-statistics block
(lines 157-169 resp. 242-254 of `main.py`) and the assembly of the result
dictionary, verbatim from the source. -/
def buildResult (df : List Candle) (portfolio : EngineOutput) : BacktestResult :=
  let winning_trades := portfolio.winCount
  let losing_trades := portfolio.loseCount
  let total_trades := winning_trades + losing_trades
  let win_rate : ℚ :=
    if 0 < total_trades then (winning_trades : ℚ) / (total_trades : ℚ) else 0
  let avg_win : ℚ := if 0 < winning_trades then lmean portfolio.winPnl else 0
  let avg_loss : ℚ := if 0 < losing_trades then lmean portfolio.losePnl else 0
  let largest_win : ℚ := if 0 < winning_trades then lmax portfolio.winPnl else 0
  let largest_loss : ℚ := if 0 < losing_trades then lmin portfolio.losePnl else 0
  let profit_factor : Flt :=
    if portfolio.losePnl.sum ≠ 0 then
      Flt.fin |portfolio.winPnl.sum / portfolio.losePnl.sum|
    else Flt.inf
  { total_return := portfolio.statsTotalReturn
    total_return_pct := portfolio.statsTotalReturnPct
    sharpe_ratio := portfolio.statsSharpe
    max_drawdown := portfolio.statsMaxDrawdown
    max_drawdown_pct := portfolio.statsMaxDrawdownPct
    win_rate := win_rate * 100
    profit_factor := profit_factor
    total_trades := (total_trades : ℤ)
    winning_trades := (winning_trades : ℤ)
    losing_trades := (losing_trades : ℤ)
    avg_win := avg_win
    avg_loss := avg_loss
    largest_win := largest_win
    largest_loss := largest_loss
    equity_curve := mkEquityCurve df portfolio.equity
    trades := (portfolio.records.map (mkTradeOut df))
    execution_time := 0 }

/-- The function `run_ma_crossover_strategy`: moving-average signals, portfolio
simulation, result assembly. -/
def run_ma_crossover_strategy (lib : Library) (df : List Candle)
    (params : StrategyParams) : BacktestResult :=
  let close := df.map Candle.close
  let fast_ma := lib.ma close params.fast_window
  let slow_ma := lib.ma close params.slow_window
  let entries := seriesAbove fast_ma slow_ma
  let exits := seriesBelow fast_ma slow_ma
  let portfolio := lib.fromSignals
    { close := close
      entries := entries
      exits := exits
      init_cash := params.initial_capital
      fees := params.commission_pct
      sl_stop := params.stop_loss_pct
      tp_stop := params.take_profit_pct }
  buildResult df portfolio

/-- The order `df.sort_index()` sorts by: ascending datetime index, i.e.
ascending millisecond timestamp. -/
def candleLE (a b : Candle) : Prop := a.timestamp ≤ b.timestamp

instance : DecidableRel candleLE :=
  fun a b => inferInstanceAs (Decidable (a.timestamp ≤ b.timestamp))

instance : IsTotal Candle candleLE := ⟨fun a b => Int.le_total a.timestamp b.timestamp⟩

instance : IsTrans Candle candleLE := ⟨fun _ _ _ h h' => le_trans h h'⟩

/-- Strict version of [candleLE], used to show the sorted order is unique
when all timestamps are distinct. -/
def candleLT (a b : Candle) : Prop := a.timestamp < b.timestamp

instance : IsAntisymm Candle candleLT :=
  ⟨fun _ _ h h' => absurd h' (not_lt_of_lt h)⟩

/-- The sort `df.sort_index()`: sort the candles by ascending timestamp (pandas uses
a stable sort; insertion sort is stable, and all claims below only concern
distinct timestamps anyway). -/
def sortCandles (l : List Candle) : List Candle := List.insertionSort candleLE l

/-- The function `run_rsi_strategy`: RSI threshold signals, portfolio simulation, result
assembly. -/
def run_rsi_strategy (lib : Library) (df : List Candle)
    (params : StrategyParams) : BacktestResult :=
  let close := df.map Candle.close
  let rsi := lib.rsi close params.rsi_window
  let entries := seriesBelowScalar rsi (params.rsi_oversold : ℚ)
  let exits := seriesAboveScalar rsi (params.rsi_overbought : ℚ)
  let portfolio := lib.fromSignals
    { close := close
      entries := entries
      exits := exits
      init_cash := params.initial_capital
      fees := params.commission_pct
      sl_stop := params.stop_loss_pct
      tp_stop := params.take_profit_pct }
  buildResult df portfolio

/-- An exception escaping the `try` block of the handler: either the
`HTTPException(status_code=400, ...)` raised for an unsupported strategy
type, or the `KeyError` pandas raises when `df['timestamp']` is read off
the column-less DataFrame built from an empty candle list. -/
inductive Exc where
  | http (status_code : ℤ) (detail : String)
  | keyError (key : String)
  deriving DecidableEq

/-- The rendering `str(e)` of each modelled exception: starlette's `HTTPException`
renders as its status code, a colon and the detail, and a `KeyError`
renders its key in quotes. -/
def excToString : Exc → String
  | Exc.http c d => toString c ++ ": " ++ d
  | Exc.keyError k => "\x27" ++ k ++ "\x27"

/-- The error half of a FastAPI `HTTPException` response. -/
structure HTTPError where
  status_code : ℤ
  detail : String
  deriving DecidableEq

/-- The body of the handler's `try` block: DataFrame construction,
timestamp sort, strategy dispatch.  An empty candle list makes
`pd.to_datetime(df['timestamp'], unit='ms')` raise `KeyError('timestamp')`
before any strategy runs. -/
def tryBlock (lib : Library) (request : BacktestRequest) :
    Except Exc BacktestResult :=
  if request.candles.isEmpty then Except.error (Exc.keyError "timestamp")
  else
    let df := sortCandles request.candles
    if request.strategy_params.strategy_type = "ma_crossover" then
      Except.ok (run_ma_crossover_strategy lib df request.strategy_params)
    else if request.strategy_params.strategy_type = "rsi" then
      Except.ok (run_rsi_strategy lib df request.strategy_params)
    else
      Except.error (Exc.http 400
        ("Strategy type \x27" ++ request.strategy_params.strategy_type ++
          "\x27 not supported"))

/-- The `/run-backtest` handler: every exception escaping the `try` block —
the in-handler 400 included — is caught by `except Exception` and re-raised
as a 500 whose detail starts with `Backtest failed: `.  The wall-clock
`execution_time` written into a successful result is outside the model and
stays at the placeholder `0` of the strategy functions. -/
def run_backtest (lib : Library) (request : BacktestRequest) :
    Except HTTPError BacktestResult :=
  match tryBlock lib request with
  | Except.ok r => Except.ok r
  | Except.error e =>
      Except.error { status_code := 500, detail := "Backtest failed: " ++ excToString e }

/-- An observable action of the stress-test script. -/
inductive ScriptAction where
  | httpGet (url : String)
  | httpPost (url : String)
  | sleep (seconds : ℚ)
  deriving DecidableEq

/-- The URL template `API_URL` of `stress_test_drawdown.py`. -/
def API_URL : String :=
  "http://localhost:3000/api/portfolios/{portfolio_id}/risk/assessment"

/-- The result of `API_URL.format(portfolio_id=portfolio_id)` with the script's
placeholder id substituted into the template. -/
def assessmentUrl : String :=
  "http://localhost:3000/api/portfolios/" ++ "YOUR_PORTFOLIO_ID" ++
    "/risk/assessment"

/-- The action trace of the module body of `stress_test_drawdown.py`: ten
iterations, each a GET to the risk-assessment URL followed by
`time.sleep(0.5)`. -/
def stressTestActions : List ScriptAction :=
  (List.range 10).flatMap
    (fun _ => [ScriptAction.httpGet assessmentUrl, ScriptAction.sleep (1/2)])

/-- A concrete instantiation of the external library, used to evaluate the
parametric theorems on closed inputs: the indicators echo the close series
and the simulator returns the close series as equity with no trades (it
satisfies the engine's equity-length contract). -/
def lib0 : Library :=
  { ma := fun c _ => c.map some
    rsi := fun c _ => c.map some
    fromSignals := fun si =>
      { statsTotalReturn := 0
        statsTotalReturnPct := 0
        statsSharpe := 0
        statsMaxDrawdown := 0
        statsMaxDrawdownPct := 0
        equity := si.close
        records := []
        winCount := 0
        loseCount := 0
        winPnl := []
        losePnl := [] } }

/-- A concrete candle (timestamp 2000 ms). -/
def candleA : Candle :=
  { timestamp := 2000, open_ := 1, high := 1, low := 1, close := 1, volume := 1 }

/-- A concrete candle (timestamp 1000 ms). -/
def candleB : Candle :=
  { timestamp := 1000, open_ := 2, high := 2, low := 2, close := 2, volume := 2 }

/-- A concrete request with the default (`ma_crossover`) parameters and
candles arriving out of timestamp order. -/
def reqMA : BacktestRequest :=
  { candles := [candleA, candleB], strategy_params := {} }

/-- A concrete request with an empty candle list and the default
(`ma_crossover`) parameters. -/
def reqEmpty : BacktestRequest :=
  { candles := [], strategy_params := {} }

/-- A concrete request with an unsupported strategy type. -/
def reqBad : BacktestRequest :=
  { candles := [candleA], strategy_params := { strategy_type := "macd" } }

/-- A concrete engine output with one winning trade (PnL 5) and three
losing trades (PnL -1, -2, -3). -/
def engineOut1 : EngineOutput :=
  { statsTotalReturn := 0
    statsTotalReturnPct := 0
    statsSharpe := 0
    statsMaxDrawdown := 0
    statsMaxDrawdownPct := 0
    equity := []
    records := []
    winCount := 1
    loseCount := 3
    winPnl := [5]
    losePnl := [-1, -2, -3] }

/-- Every numeric value obtainable from a single pre-built primitive of the
engine on a given output: the five stats entries the service reads, the
trade counts, the win/lose PnL series with their pandas aggregates
(`sum`, `mean`, `max`, `min`), the equity values and the per-trade PnL
fields.  Used to state that a response field was produced by the engine
rather than by the service's own arithmetic. -/
def enginePrimitiveValues (o : EngineOutput) : List ℚ :=
  [o.statsTotalReturn, o.statsTotalReturnPct, o.statsSharpe,
    o.statsMaxDrawdown, o.statsMaxDrawdownPct,
    (o.winCount : ℚ), (o.loseCount : ℚ),
    o.winPnl.sum, o.losePnl.sum, lmean o.winPnl, lmean o.losePnl,
    lmax o.winPnl, lmax o.losePnl, lmin o.winPnl, lmin o.losePnl] ++
  o.winPnl ++ o.losePnl ++ o.equity ++ o.records.map TradeRec.pnl

/-- C7: the stress-test script issues exactly 10 GET requests to the
risk-assessment URL, sleeps 0.5 s after each of them, and performs no
state-mutating request (no POST at all). -/
theorem C7_stress_script :
    (stressTestActions.filter
      (fun a => match a with
        | ScriptAction.httpGet _ => true
        | _ => false)).length = 10 ∧
    (∀ a ∈ stressTestActions,
      a = ScriptAction.httpGet assessmentUrl ∨ a = ScriptAction.sleep (1/2)) ∧
    (stressTestActions.all
      (fun a => match a with
        | ScriptAction.httpPost _ => false
        | _ => true)) = true ∧
    (∀ i : ℕ, i < 10 →
      stressTestActions.getD (2*i) (ScriptAction.sleep 0)
        = ScriptAction.httpGet assessmentUrl ∧
      stressTestActions.getD (2*i+1) (ScriptAction.sleep 0)
        = ScriptAction.sleep (1/2)) ∧
    assessmentUrl =
      "http://localhost:3000/api/portfolios/YOUR_PORTFOLIO_ID/risk/assessment" := by
  with_unfolding_all decide

/-- Witness for C7 at a concrete index: the first action is the GET and the
second is the 0.5 s sleep. -/
theorem C7_stress_script_witness :
    stressTestActions.getD 0 (ScriptAction.sleep 0)
      = ScriptAction.httpGet assessmentUrl ∧
    stressTestActions.getD 1 (ScriptAction.sleep 0)
      = ScriptAction.sleep (1/2) :=
  C7_stress_script.2.2.2.1 0 (by decide)

/-- An engine output with no closed trades at all. -/
def engineOut0 : EngineOutput :=
  { statsTotalReturn := 0
    statsTotalReturnPct := 0
    statsSharpe := 0
    statsMaxDrawdown := 0
    statsMaxDrawdownPct := 0
    equity := []
    records := []
    winCount := 0
    loseCount := 0
    winPnl := []
    losePnl := [] }

/-- C1: counterexample.  The claim would make every one of the
`win_rate`, `profit_factor`, `avg_win`, `avg_loss`, `largest_win`,
`largest_loss` response fields the value of some pre-built engine
primitive.  On the concrete engine output [engineOut1] (one winning trade
of PnL 5, three losing trades of PnL -1, -2, -3) the service's `win_rate`
is 25 and its `profit_factor` is 5/6, neither of which occurs among the
values of the engine's primitives on that output: both are computed by the
service's own arithmetic (lines 157-169 of `main.py`). -/
theorem C1_counterexample :
    ((buildResult [] engineOut1).win_rate = 25 ∧
      (25 : ℚ) ∉ enginePrimitiveValues engineOut1) ∧
    ((buildResult [] engineOut1).profit_factor = Flt.fin (5/6) ∧
      (5/6 : ℚ) ∉ enginePrimitiveValues engineOut1) := by
  with_unfolding_all decide

/-- C1 (amended): the service computes the six trade-statistics fields
itself from the engine's trade-level primitives: `win_rate` is
`win_count / (win_count + lose_count) * 100` (0 with no closed trades),
`avg_win`/`avg_loss` are the means of the win/lose PnL series (0 when the
respective count is 0), `largest_win`/`largest_loss` are the max of the
win PnL resp. the min of the lose PnL (0 when the respective count is 0),
and `profit_factor` is `|sum win PnL / sum lose PnL|`, or infinity when
the lose PnL sums to 0. -/
theorem C1_amended_stats_formulas (df : List Candle) (o : EngineOutput) :
    (0 < o.winCount + o.loseCount →
      (buildResult df o).win_rate =
        (o.winCount : ℚ) / ((o.winCount : ℚ) + (o.loseCount : ℚ)) * 100) ∧
    (o.winCount + o.loseCount = 0 → (buildResult df o).win_rate = 0) ∧
    (0 < o.winCount →
      (buildResult df o).avg_win = o.winPnl.sum / (o.winPnl.length : ℚ)) ∧
    (o.winCount = 0 → (buildResult df o).avg_win = 0) ∧
    (0 < o.loseCount →
      (buildResult df o).avg_loss = o.losePnl.sum / (o.losePnl.length : ℚ)) ∧
    (o.loseCount = 0 → (buildResult df o).avg_loss = 0) ∧
    (0 < o.winCount → (buildResult df o).largest_win = lmax o.winPnl) ∧
    (o.winCount = 0 → (buildResult df o).largest_win = 0) ∧
    (0 < o.loseCount → (buildResult df o).largest_loss = lmin o.losePnl) ∧
    (o.loseCount = 0 → (buildResult df o).largest_loss = 0) ∧
    (o.losePnl.sum ≠ 0 →
      (buildResult df o).profit_factor = Flt.fin |o.winPnl.sum / o.losePnl.sum|) ∧
    (o.losePnl.sum = 0 → (buildResult df o).profit_factor = Flt.inf) := by
  dsimp only [buildResult]
  refine ⟨?_, ?_, ?_, ?_, ?_, ?_, ?_, ?_, ?_, ?_, ?_, ?_⟩ <;> intro h
  · rw [if_pos h]; push_cast; ring
  · rw [if_neg (by omega)]; ring
  · rw [if_pos h]; rfl
  · rw [if_neg (by omega)]
  · rw [if_pos h]; rfl
  · rw [if_neg (by omega)]
  · rw [if_pos h]
  · rw [if_neg (by omega)]
  · rw [if_pos h]
  · rw [if_neg (by omega)]
  · rw [if_pos h]
  · rw [if_neg (by simp [h])]

/-- Witness for the amended C1 on [engineOut1]: one winning and three
losing trades give the service's own-formula values. -/
theorem C1_amended_stats_formulas_witness :
    (buildResult [] engineOut1).win_rate =
      (engineOut1.winCount : ℚ) /
        ((engineOut1.winCount : ℚ) + (engineOut1.loseCount : ℚ)) * 100 ∧
    (buildResult [] engineOut1).avg_win =
      engineOut1.winPnl.sum / (engineOut1.winPnl.length : ℚ) :=
  ⟨(C1_amended_stats_formulas [] engineOut1).1 (by decide),
   (C1_amended_stats_formulas [] engineOut1).2.2.1 (by decide)⟩

/-- C9: in every assembled result `total_trades = winning_trades +
losing_trades`, `win_rate` lies in `[0, 100]`, with zero closed trades the
five guarded statistics are all `0`, and with a zero losing-PnL sum the
`profit_factor` is infinity instead of a division error. -/
theorem C9_stats_safety (df : List Candle) (o : EngineOutput) :
    (buildResult df o).total_trades =
      (buildResult df o).winning_trades + (buildResult df o).losing_trades ∧
    0 ≤ (buildResult df o).win_rate ∧ (buildResult df o).win_rate ≤ 100 ∧
    (o.winCount + o.loseCount = 0 →
      (buildResult df o).win_rate = 0 ∧ (buildResult df o).avg_win = 0 ∧
      (buildResult df o).avg_loss = 0 ∧ (buildResult df o).largest_win = 0 ∧
      (buildResult df o).largest_loss = 0) ∧
    (o.losePnl.sum = 0 → (buildResult df o).profit_factor = Flt.inf) := by
  dsimp only [buildResult]
  refine ⟨by push_cast; ring, ?_, ?_, ?_, ?_⟩
  · by_cases h : 0 < o.winCount + o.loseCount
    · rw [if_pos h]
      have : (0:ℚ) ≤ (o.winCount : ℚ) / ((o.winCount + o.loseCount : ℕ) : ℚ) :=
        div_nonneg (by positivity) (by positivity)
      nlinarith
    · rw [if_neg h]; norm_num
  · by_cases h : 0 < o.winCount + o.loseCount
    · rw [if_pos h]
      have hle : (o.winCount : ℚ) / ((o.winCount + o.loseCount : ℕ) : ℚ) ≤ 1 := by
        rw [div_le_one (by exact_mod_cast h)]
        exact_mod_cast Nat.le_add_right o.winCount o.loseCount
      nlinarith
    · rw [if_neg h]; norm_num
  · intro h
    have hw : o.winCount = 0 := by omega
    have hl : o.loseCount = 0 := by omega
    refine ⟨by rw [if_neg (by omega)]; ring, by rw [if_neg (by omega)],
      by rw [if_neg (by omega)], by rw [if_neg (by omega)],
      by rw [if_neg (by omega)]⟩
  · intro h
    rw [if_neg (by simp [h])]

/-- Witness for C9 on the trade-free engine output [engineOut0]. -/
theorem C9_stats_safety_witness :
    ((buildResult [] engineOut0).win_rate = 0 ∧
      (buildResult [] engineOut0).avg_win = 0 ∧
      (buildResult [] engineOut0).avg_loss = 0 ∧
      (buildResult [] engineOut0).largest_win = 0 ∧
      (buildResult [] engineOut0).largest_loss = 0) ∧
    (buildResult [] engineOut0).profit_factor = Flt.inf :=
  ⟨(C9_stats_safety [] engineOut0).2.2.2.1 (by decide),
   (C9_stats_safety [] engineOut0).2.2.2.2 (by decide)⟩

/-- C2: counterexample.  The request [reqEmpty] has strategy type
`ma_crossover`, yet no strategy is run: the empty candle list makes the
DataFrame construction raise `KeyError('timestamp')` before the dispatch,
and the endpoint returns the 500 error `Backtest failed: 'timestamp'`
instead of a strategy result. -/
theorem C2_counterexample :
    reqEmpty.strategy_params.strategy_type = "ma_crossover" ∧
    (run_backtest lib0 reqEmpty).isOk = false ∧
    run_backtest lib0 reqEmpty = Except.error
      { status_code := 500, detail := "Backtest failed: \x27timestamp\x27" } := by
  refine ⟨rfl, rfl, rfl⟩

/-- C2 (amended): provided the candle list is nonempty (so that the
DataFrame construction succeeds), a request with strategy type
`ma_crossover` runs the moving-average strategy, one with `rsi` runs the
RSI strategy, and one with any other strategy type performs no portfolio
simulation (the response does not depend on the library at all) and
produces an error response whose detail states that the strategy type is
not supported (wrapped by the generic handler into a 500). -/
theorem C2_dispatch (lib : Library) (req : BacktestRequest)
    (hne : req.candles ≠ []) :
    (req.strategy_params.strategy_type = "ma_crossover" →
      run_backtest lib req = Except.ok
        (run_ma_crossover_strategy lib (sortCandles req.candles)
          req.strategy_params)) ∧
    (req.strategy_params.strategy_type = "rsi" →
      run_backtest lib req = Except.ok
        (run_rsi_strategy lib (sortCandles req.candles)
          req.strategy_params)) ∧
    (req.strategy_params.strategy_type ≠ "ma_crossover" →
      req.strategy_params.strategy_type ≠ "rsi" →
      (∀ lib2 : Library, run_backtest lib2 req = run_backtest lib req) ∧
      run_backtest lib req = Except.error
        { status_code := 500
          detail := "Backtest failed: " ++ excToString (Exc.http 400
            ("Strategy type \x27" ++ req.strategy_params.strategy_type ++
              "\x27 not supported")) }) := by
  have hemp : req.candles.isEmpty = false := by
    simpa [List.isEmpty_iff] using hne
  refine ⟨?_, ?_, ?_⟩
  · intro h
    simp [run_backtest, tryBlock, hemp, h]
  · intro h
    have hma : req.strategy_params.strategy_type ≠ "ma_crossover" := by
      rw [h]; decide
    simp [run_backtest, tryBlock, hemp, h, hma]
  · intro h1 h2
    refine ⟨fun lib2 => ?_, ?_⟩
    · simp [run_backtest, tryBlock, hemp, h1, h2]
    · simp [run_backtest, tryBlock, hemp, h1, h2]

/-- Witness for the amended C2: the unsupported strategy type `macd` with a
nonempty candle list yields the wrapped not-supported error. -/
theorem C2_dispatch_witness :
    run_backtest lib0 reqBad = Except.error
      { status_code := 500
        detail := "Backtest failed: " ++ excToString (Exc.http 400
          ("Strategy type \x27" ++ reqBad.strategy_params.strategy_type ++
            "\x27 not supported")) } :=
  ((C2_dispatch lib0 reqBad (by decide)).2.2 (by decide) (by decide)).2

/-- C8: every error response of the endpoint has HTTP status 500 — never
400 — and a detail string prefixed with `Backtest failed: `; in
particular the in-handler 400 raised for an unsupported strategy type is
caught by the generic `except` and re-wrapped into such a 500. -/
theorem C8_error_wrapping (lib : Library) (req : BacktestRequest) :
    (∀ e : HTTPError, run_backtest lib req = Except.error e →
      e.status_code = 500 ∧ e.status_code ≠ 400 ∧
      ∃ s : String, e.detail = "Backtest failed: " ++ s) ∧
    (req.candles ≠ [] → req.strategy_params.strategy_type ≠ "ma_crossover" →
      req.strategy_params.strategy_type ≠ "rsi" →
      tryBlock lib req = Except.error (Exc.http 400
        ("Strategy type \x27" ++ req.strategy_params.strategy_type ++
          "\x27 not supported")) ∧
      run_backtest lib req = Except.error
        { status_code := 500
          detail := "Backtest failed: " ++ excToString (Exc.http 400
            ("Strategy type \x27" ++ req.strategy_params.strategy_type ++
              "\x27 not supported")) }) := by
  constructor
  · intro e he
    unfold run_backtest at he
    cases htb : tryBlock lib req with
    | ok r => rw [htb] at he; exact absurd he (by simp)
    | error exc =>
        rw [htb] at he
        simp only [Except.error.injEq] at he
        subst he
        exact ⟨rfl, by simp, excToString exc, rfl⟩
  · intro hne h1 h2
    have hemp : req.candles.isEmpty = false := by
      simpa [List.isEmpty_iff] using hne
    constructor
    · simp [tryBlock, hemp, h1, h2]
    · simp [run_backtest, tryBlock, hemp, h1, h2]

/-- Witness for C8: the concrete unsupported-type request [reqBad] is
rejected inside the handler with a 400 and answered with the wrapped
500. -/
theorem C8_error_wrapping_witness :
    tryBlock lib0 reqBad = Except.error (Exc.http 400
      ("Strategy type \x27" ++ reqBad.strategy_params.strategy_type ++
        "\x27 not supported")) ∧
    run_backtest lib0 reqBad = Except.error
      { status_code := 500
        detail := "Backtest failed: " ++ excToString (Exc.http 400
          ("Strategy type \x27" ++ reqBad.strategy_params.strategy_type ++
            "\x27 not supported")) } :=
  (C8_error_wrapping lib0 reqBad).2 (by decide) (by decide) (by decide)

/-- Sorting the candles preserves their number. -/
theorem sortCandles_length (l : List Candle) :
    (sortCandles l).length = l.length :=
  (List.perm_insertionSort candleLE l).length_eq

/-- Any successful handler response was assembled by [buildResult] from the
timestamp-sorted candles and the engine's output on some simulation input
whose close series is the sorted close column. -/
theorem run_backtest_ok_shape (lib : Library) (req : BacktestRequest)
    (r : BacktestResult) (h : run_backtest lib req = Except.ok r) :
    ∃ si : SimInput, si.close = (sortCandles req.candles).map Candle.close ∧
      r = buildResult (sortCandles req.candles) (lib.fromSignals si) := by
  unfold run_backtest at h
  cases htb : tryBlock lib req with
  | error e => rw [htb] at h; exact absurd h (by simp)
  | ok r0 =>
      rw [htb] at h
      simp only [Except.ok.injEq] at h
      subst h
      unfold tryBlock at htb
      by_cases hemp : req.candles.isEmpty
      · rw [if_pos hemp] at htb; exact absurd htb (by simp)
      · rw [if_neg hemp] at htb
        by_cases hma : req.strategy_params.strategy_type = "ma_crossover"
        · rw [if_pos hma] at htb
          simp only [Except.ok.injEq] at htb
          subst htb
          exact ⟨_, rfl, rfl⟩
        · rw [if_neg hma] at htb
          by_cases hrsi : req.strategy_params.strategy_type = "rsi"
          · rw [if_pos hrsi] at htb
            simp only [Except.ok.injEq] at htb
            subst htb
            exact ⟨_, rfl, rfl⟩
          · rw [if_neg hrsi] at htb; exact absurd htb (by simp)

/-- C3: every successful response carries the backtest statistics: it is
assembled by [buildResult] from an engine output, its return fields and
drawdown fields are the engine's stats entries, its `win_rate` is the
computed win rate, and its `trades` and `equity_curve` are the reshaped
trade list and equity curve. -/
theorem C3_success_fields (lib : Library) (req : BacktestRequest)
    (r : BacktestResult) (h : run_backtest lib req = Except.ok r) :
    ∃ o : EngineOutput,
      r = buildResult (sortCandles req.candles) o ∧
      r.total_return = o.statsTotalReturn ∧
      r.total_return_pct = o.statsTotalReturnPct ∧
      r.max_drawdown = o.statsMaxDrawdown ∧
      r.max_drawdown_pct = o.statsMaxDrawdownPct ∧
      r.win_rate = (if 0 < o.winCount + o.loseCount then
        (o.winCount : ℚ) / ((o.winCount + o.loseCount : ℕ) : ℚ) else 0) * 100 ∧
      r.trades = o.records.map (mkTradeOut (sortCandles req.candles)) ∧
      r.equity_curve = mkEquityCurve (sortCandles req.candles) o.equity := by
  obtain ⟨si, -, hr⟩ := run_backtest_ok_shape lib req r h
  subst hr
  exact ⟨_, rfl, rfl, rfl, rfl, rfl, rfl, rfl, rfl⟩

/-- Witness for C3: on a concrete successful request the response's
`execution_time` placeholder shows it was assembled by [buildResult]. -/
theorem C3_success_fields_witness :
    (run_ma_crossover_strategy lib0 (sortCandles reqMA.candles)
      reqMA.strategy_params).execution_time = 0 := by
  obtain ⟨o, ho, -⟩ := C3_success_fields lib0 reqMA
    (run_ma_crossover_strategy lib0 (sortCandles reqMA.candles)
      reqMA.strategy_params) (by rfl)
  rw [ho]
  exact rfl

/-- Pointwise meaning of [seriesAbove]: within range, the signal is on
exactly when both series have a (non-`NaN`) value there and the first
strictly exceeds the second. -/
theorem seriesAbove_getD (xs ys : List (Option ℚ)) (i : ℕ)
    (hi : i < (seriesAbove xs ys).length) :
    ((seriesAbove xs ys).getD i false = true ↔
      ∃ f s : ℚ, xs.getD i none = some f ∧ ys.getD i none = some s ∧ s < f) := by
  induction xs generalizing ys i with
  | nil => simp [seriesAbove] at hi
  | cons x xs ih =>
      cases ys with
      | nil => simp [seriesAbove] at hi
      | cons y ys =>
          cases i with
          | zero => cases x <;> cases y <;> simp [seriesAbove]
          | succ n =>
              have hi' : n < (seriesAbove xs ys).length := by
                simpa [seriesAbove] using hi
              simpa [seriesAbove] using ih ys n hi'

/-- Pointwise meaning of [seriesBelow]: within range, the signal is on
exactly when both series have a value there and the first is strictly
below the second. -/
theorem seriesBelow_getD (xs ys : List (Option ℚ)) (i : ℕ)
    (hi : i < (seriesBelow xs ys).length) :
    ((seriesBelow xs ys).getD i false = true ↔
      ∃ f s : ℚ, xs.getD i none = some f ∧ ys.getD i none = some s ∧ f < s) := by
  induction xs generalizing ys i with
  | nil => simp [seriesBelow] at hi
  | cons x xs ih =>
      cases ys with
      | nil => simp [seriesBelow] at hi
      | cons y ys =>
          cases i with
          | zero => cases x <;> cases y <;> simp [seriesBelow]
          | succ n =>
              have hi' : n < (seriesBelow xs ys).length := by
                simpa [seriesBelow] using hi
              simpa [seriesBelow] using ih ys n hi'

/-- Pointwise meaning of [seriesBelowScalar]: the signal is on exactly when
the series has a value there that is strictly below the threshold. -/
theorem seriesBelowScalar_getD (xs : List (Option ℚ)) (t : ℚ) (i : ℕ)
    (hi : i < (seriesBelowScalar xs t).length) :
    ((seriesBelowScalar xs t).getD i false = true ↔
      ∃ v : ℚ, xs.getD i none = some v ∧ v < t) := by
  induction xs generalizing i with
  | nil => simp [seriesBelowScalar] at hi
  | cons x xs ih =>
      cases i with
      | zero => cases x <;> simp [seriesBelowScalar]
      | succ n =>
          have hi' : n < (seriesBelowScalar xs t).length := by
            simpa [seriesBelowScalar] using hi
          simpa [seriesBelowScalar] using ih n hi'

/-- Pointwise meaning of [seriesAboveScalar]: the signal is on exactly when
the series has a value there that strictly exceeds the threshold. -/
theorem seriesAboveScalar_getD (xs : List (Option ℚ)) (t : ℚ) (i : ℕ)
    (hi : i < (seriesAboveScalar xs t).length) :
    ((seriesAboveScalar xs t).getD i false = true ↔
      ∃ v : ℚ, xs.getD i none = some v ∧ t < v) := by
  induction xs generalizing i with
  | nil => simp [seriesAboveScalar] at hi
  | cons x xs ih =>
      cases i with
      | zero => cases x <;> simp [seriesAboveScalar]
      | succ n =>
          have hi' : n < (seriesAboveScalar xs t).length := by
            simpa [seriesAboveScalar] using hi
          simpa [seriesAboveScalar] using ih n hi'

/-- C4: the moving-average strategy hands the engine exactly the close
series, entry signals `fast MA above slow MA`, exit signals `fast MA below
slow MA` (windows `fast_window` and `slow_window`), `initial_capital` as
cash, `commission_pct` as fees, `stop_loss_pct` as stop-loss and
`take_profit_pct` as take-profit; pointwise, the entry (resp. exit)
signal at a bar is on exactly when the fast MA is strictly above
(resp. below) the slow MA there. -/
theorem C4_ma_signals (lib : Library) (df : List Candle)
    (params : StrategyParams) :
    run_ma_crossover_strategy lib df params =
      buildResult df (lib.fromSignals
        { close := df.map Candle.close
          entries := seriesAbove (lib.ma (df.map Candle.close) params.fast_window)
            (lib.ma (df.map Candle.close) params.slow_window)
          exits := seriesBelow (lib.ma (df.map Candle.close) params.fast_window)
            (lib.ma (df.map Candle.close) params.slow_window)
          init_cash := params.initial_capital
          fees := params.commission_pct
          sl_stop := params.stop_loss_pct
          tp_stop := params.take_profit_pct }) ∧
    (∀ i : ℕ,
      i < (seriesAbove (lib.ma (df.map Candle.close) params.fast_window)
        (lib.ma (df.map Candle.close) params.slow_window)).length →
      ((seriesAbove (lib.ma (df.map Candle.close) params.fast_window)
          (lib.ma (df.map Candle.close) params.slow_window)).getD i false = true ↔
        ∃ f s : ℚ,
          (lib.ma (df.map Candle.close) params.fast_window).getD i none = some f ∧
          (lib.ma (df.map Candle.close) params.slow_window).getD i none = some s ∧
          s < f)) ∧
    (∀ i : ℕ,
      i < (seriesBelow (lib.ma (df.map Candle.close) params.fast_window)
        (lib.ma (df.map Candle.close) params.slow_window)).length →
      ((seriesBelow (lib.ma (df.map Candle.close) params.fast_window)
          (lib.ma (df.map Candle.close) params.slow_window)).getD i false = true ↔
        ∃ f s : ℚ,
          (lib.ma (df.map Candle.close) params.fast_window).getD i none = some f ∧
          (lib.ma (df.map Candle.close) params.slow_window).getD i none = some s ∧
          f < s)) :=
  ⟨rfl, fun i hi => seriesAbove_getD _ _ i hi,
    fun i hi => seriesBelow_getD _ _ i hi⟩

/-- Witness for C4 on [lib0] (whose indicator echoes the close series):
with fast and slow MA equal everywhere, the entry signal at bar 0 is off. -/
theorem C4_ma_signals_witness :
    (seriesAbove (lib0.ma ([candleA].map Candle.close) 20)
      (lib0.ma ([candleA].map Candle.close) 50)).getD 0 false ≠ true := by
  intro htrue
  obtain ⟨f, s, hf, hs, hlt⟩ :=
    ((C4_ma_signals lib0 [candleA] {}).2.1 0 (by decide)).mp htrue
  have hf' : candleA.close = f := by simpa [lib0] using hf
  have hs' : candleA.close = s := by simpa [lib0] using hs
  rw [← hf', ← hs'] at hlt
  exact lt_irrefl _ hlt

/-- C5: the RSI strategy hands the engine exactly the close series, entry
signals `RSI below rsi_oversold`, exit signals `RSI above rsi_overbought`
(window `rsi_window`), `initial_capital` as cash, `commission_pct` as
fees, `stop_loss_pct` as stop-loss and `take_profit_pct` as take-profit;
pointwise, the entry (resp. exit) signal at a bar is on exactly when the
RSI there is strictly below the oversold (resp. strictly above the
overbought) threshold. -/
theorem C5_rsi_signals (lib : Library) (df : List Candle)
    (params : StrategyParams) :
    run_rsi_strategy lib df params =
      buildResult df (lib.fromSignals
        { close := df.map Candle.close
          entries := seriesBelowScalar
            (lib.rsi (df.map Candle.close) params.rsi_window)
            (params.rsi_oversold : ℚ)
          exits := seriesAboveScalar
            (lib.rsi (df.map Candle.close) params.rsi_window)
            (params.rsi_overbought : ℚ)
          init_cash := params.initial_capital
          fees := params.commission_pct
          sl_stop := params.stop_loss_pct
          tp_stop := params.take_profit_pct }) ∧
    (∀ i : ℕ,
      i < (seriesBelowScalar (lib.rsi (df.map Candle.close) params.rsi_window)
        (params.rsi_oversold : ℚ)).length →
      ((seriesBelowScalar (lib.rsi (df.map Candle.close) params.rsi_window)
          (params.rsi_oversold : ℚ)).getD i false = true ↔
        ∃ v : ℚ,
          (lib.rsi (df.map Candle.close) params.rsi_window).getD i none = some v ∧
          v < (params.rsi_oversold : ℚ))) ∧
    (∀ i : ℕ,
      i < (seriesAboveScalar (lib.rsi (df.map Candle.close) params.rsi_window)
        (params.rsi_overbought : ℚ)).length →
      ((seriesAboveScalar (lib.rsi (df.map Candle.close) params.rsi_window)
          (params.rsi_overbought : ℚ)).getD i false = true ↔
        ∃ v : ℚ,
          (lib.rsi (df.map Candle.close) params.rsi_window).getD i none = some v ∧
          (params.rsi_overbought : ℚ) < v)) :=
  ⟨rfl, fun i hi => seriesBelowScalar_getD _ _ i hi,
    fun i hi => seriesAboveScalar_getD _ _ i hi⟩

/-- Witness for C5 on [lib0]: the echoed RSI value 1 is below the default
oversold threshold 30, so the entry signal at bar 0 is on. -/
theorem C5_rsi_signals_witness :
    (seriesBelowScalar (lib0.rsi ([candleA].map Candle.close) 14)
      (((30 : ℤ) : ℚ))).getD 0 false = true :=
  ((C5_rsi_signals lib0 [candleA] {}).2.1 0 (by decide)).mpr
    ⟨candleA.close, rfl, by decide⟩

/-- The reshaped equity curve has one entry per equity value. -/
theorem mkEquityCurve_length (df : List Candle) (eq : List ℚ) :
    (mkEquityCurve df eq).length = eq.length := by
  simp [mkEquityCurve]

/-- Within range, the `i`-th entry of the reshaped equity curve pairs the
`i`-th row timestamp with the `i`-th equity value. -/
theorem mkEquityCurve_getD (df : List Candle) (eq : List ℚ) (i : ℕ)
    (hi : i < eq.length) :
    (mkEquityCurve df eq).getD i { timestamp := 0, value := 0 } =
      { timestamp := (df.map Candle.timestamp).getD i 0,
        value := eq.getD i 0 } := by
  have hi' : i < (mkEquityCurve df eq).length := by
    simpa [mkEquityCurve] using hi
  rw [List.getD_eq_getElem _ _ hi', List.getD_eq_getElem _ _ hi]
  simp [mkEquityCurve, tsAt, List.getD_eq_getElem _ _ hi]

/-- C6: under the engine's contract that the equity series is as long as
the close series it was given, every successful response's `equity_curve`
has exactly one entry per candle, and its `i`-th entry pairs the `i`-th
timestamp-sorted candle's millisecond timestamp with the engine's `i`-th
equity value. -/
theorem C6_equity_curve (lib : Library) (req : BacktestRequest)
    (r : BacktestResult)
    (hlen : ∀ si : SimInput, (lib.fromSignals si).equity.length = si.close.length)
    (h : run_backtest lib req = Except.ok r) :
    r.equity_curve.length = req.candles.length ∧
    ∃ o : EngineOutput,
      r = buildResult (sortCandles req.candles) o ∧
      o.equity.length = req.candles.length ∧
      ∀ i : ℕ, i < req.candles.length →
        r.equity_curve.getD i { timestamp := 0, value := 0 } =
          { timestamp := ((sortCandles req.candles).map Candle.timestamp).getD i 0,
            value := o.equity.getD i 0 } := by
  obtain ⟨si, hclose, hr⟩ := run_backtest_ok_shape lib req r h
  have holen : (lib.fromSignals si).equity.length = req.candles.length := by
    rw [hlen si, hclose, List.length_map, sortCandles_length]
  have hcurve : r.equity_curve =
      mkEquityCurve (sortCandles req.candles) (lib.fromSignals si).equity := by
    rw [hr]; exact rfl
  constructor
  · rw [hcurve, mkEquityCurve_length, holen]
  · refine ⟨lib.fromSignals si, hr, holen, fun i hi => ?_⟩
    rw [hcurve, mkEquityCurve_getD _ _ i (by rw [holen]; exact hi)]

/-- Witness for C6: on the concrete request [reqMA] and the contract-abiding
[lib0], the equity curve has as many entries as there are candles. -/
theorem C6_equity_curve_witness :
    (run_ma_crossover_strategy lib0 (sortCandles reqMA.candles)
      reqMA.strategy_params).equity_curve.length = reqMA.candles.length :=
  (C6_equity_curve lib0 reqMA
    (run_ma_crossover_strategy lib0 (sortCandles reqMA.candles)
      reqMA.strategy_params)
    (fun _ => rfl) (by rfl)).1

/-- With all timestamps distinct, the sorted candle list is the unique
ascending-timestamp ordering, so any two permuted payloads sort to the
same DataFrame. -/
theorem sortCandles_eq_of_perm (l1 l2 : List Candle) (hp : l1.Perm l2)
    (hnd : (l1.map Candle.timestamp).Nodup) :
    sortCandles l1 = sortCandles l2 := by
  have hperm : (sortCandles l1).Perm (sortCandles l2) :=
    (List.perm_insertionSort candleLE l1).trans
      (hp.trans (List.perm_insertionSort candleLE l2).symm)
  have hnd1 : ((sortCandles l1).map Candle.timestamp).Nodup :=
    ((List.perm_insertionSort candleLE l1).map Candle.timestamp).nodup_iff.mpr hnd
  have hnd2 : ((sortCandles l2).map Candle.timestamp).Nodup :=
    ((List.perm_insertionSort candleLE l2).map Candle.timestamp).nodup_iff.mpr
      ((hp.map Candle.timestamp).nodup_iff.mp hnd)
  have hlt1 : List.Sorted candleLT (sortCandles l1) :=
    ((List.sorted_insertionSort candleLE l1).and
      (List.pairwise_map.mp hnd1)).imp
      (fun hab => lt_of_le_of_ne hab.1 hab.2)
  have hlt2 : List.Sorted candleLT (sortCandles l2) :=
    ((List.sorted_insertionSort candleLE l2).and
      (List.pairwise_map.mp hnd2)).imp
      (fun hab => lt_of_le_of_ne hab.1 hab.2)
  exact List.eq_of_perm_of_sorted hperm hlt1 hlt2

/-- C10: two requests that differ only in the wire order of their candles
— all timestamps distinct — get identical results from the handler (the
model computes the pure result; the wall-clock `execution_time` is outside
it). -/
theorem C10_order_invariance (lib : Library) (p : StrategyParams)
    (sym tf : String) (l1 l2 : List Candle) (hp : l1.Perm l2)
    (hnd : (l1.map Candle.timestamp).Nodup) :
    run_backtest lib
      { candles := l1, strategy_params := p, symbol := sym, timeframe := tf } =
    run_backtest lib
      { candles := l2, strategy_params := p, symbol := sym, timeframe := tf } := by
  have hsort := sortCandles_eq_of_perm l1 l2 hp hnd
  have hemp : l1.isEmpty = l2.isEmpty := by
    cases l1 with
    | nil => rw [← hp.nil_eq]
    | cons a t =>
        cases l2 with
        | nil => exact absurd hp.symm.nil_eq (by simp)
        | cons b s => rfl
  simp only [run_backtest, tryBlock, hemp, hsort]

/-- Witness for C10: the two-candle payload and its swapped version give
the same response. -/
theorem C10_order_invariance_witness :
    run_backtest lib0 { candles := [candleA, candleB], strategy_params := {} } =
      run_backtest lib0 { candles := [candleB, candleA], strategy_params := {} } :=
  C10_order_invariance lib0 {} "BTC/USDT" "15m" [candleA, candleB]
    [candleB, candleA] (List.Perm.swap candleB candleA []) (by decide)
